import Mathlib

/-!
Shallow embedding of `nomad/util.go` (vendored in this repository under
`src/vendor/github.com/hashicorp/nomad/nomad/util.go`): cluster-membership
classification (`isNomadServer`), the cluster version gate
(`ServersMeetMinimumVersion` and `slicesMatch`) and the node capability gate
(`nodeSupportsRpc`, `getNodeForRpc`).

Collaborators whose Go sources are not part of this repository's files
(the serf membership types, the go-version semantic-version library,
`strconv.Atoi`, `net.ParseIP`, the `structs` and `state` packages) are
modelled from the spec or passed in as parameters; each such definition says
so in its doc comment.
-/

namespace Nomad

/-- Modelled from the spec: the liveness/membership status of a gossip
member ("enumerated: alive/leaving/left/failed"); the serf library that
declares it is not among the repository's source files. -/
inductive MemberStatus where
  | alive
  | leaving
  | left
  | failed
deriving DecidableEq, Repr

/-- Modelled from the spec: one gossip membership record — "name (string),
address (IP), liveness status, tag mapping (string→string)".  The serf
library that declares `serf.Member` is not among the repository's source
files.  The address type is left abstract (`ip`); the Go map of tags is an
association list, `lookup` standing for map indexing with an `ok` flag and
`(lookup k).getD ""` standing for plain map indexing (zero value `""` when
the key is absent). -/
structure Member (ip : Type) where
  name : String
  addr : ip
  tags : List (String × String)
  status : MemberStatus

/-- Modelled from the spec: "a semantic version value (major.minor.patch
plus optional pre-release/build metadata)".  The go-version library that
declares `version.Version` is not among the repository's source files.
`segments` holds the numeric segments, `pre` the pre-release part (empty
when the version is a final release); build metadata does not participate
in ordering and is omitted. -/
structure GoVersion where
  segments : List Int
  pre : String
deriving DecidableEq, Repr

/-- Modelled from the spec: go-version's `Version.Segments()`, "the
released-version numeric segments (major.minor.patch, ignoring
pre-release/build metadata)". -/
def GoVersion.Segments (v : GoVersion) : List Int := v.segments

/-- Modelled from the spec: ordering of the numeric segments of two
semantic versions, componentwise with missing segments read as 0. -/
def segCmp : List Int → List Int → Ordering
  | [], [] => Ordering.eq
  | [], b :: bs =>
    match compare (0 : Int) b with
    | Ordering.eq => segCmp [] bs
    | o => o
  | a :: as, [] =>
    match compare a (0 : Int) with
    | Ordering.eq => segCmp as []
    | o => o
  | a :: as, b :: bs =>
    match compare a b with
    | Ordering.eq => segCmp as bs
    | o => o
termination_by a b => a.length + b.length

/-- Modelled from the spec: a pre-release identifier made only of digits is
compared numerically ("ordered per standard precedence rules"). -/
def isNumericIdent (s : String) : Bool :=
  decide (s ≠ "") && s.toList.all Char.isDigit

/-- Modelled from the spec: ordering of two pre-release identifiers per
standard semantic-version precedence — numeric identifiers compare
numerically and rank below alphanumeric ones, alphanumeric identifiers
compare lexically. -/
def identCmp (a b : String) : Ordering :=
  if isNumericIdent a && isNumericIdent b then
    compare (a.toNat?.getD 0) (b.toNat?.getD 0)
  else if isNumericIdent a then Ordering.lt
  else if isNumericIdent b then Ordering.gt
  else compare a b

/-- Modelled from the spec: ordering of two dot-split pre-release
identifier lists; a strict prefix ranks lower. -/
def identListCmp : List String → List String → Ordering
  | [], [] => Ordering.eq
  | [], _ :: _ => Ordering.lt
  | _ :: _, [] => Ordering.gt
  | x :: xs, y :: ys =>
    match identCmp x y with
    | Ordering.eq => identListCmp xs ys
    | o => o

/-- Modelled from the spec: ordering of two pre-release strings — a version
without a pre-release ranks above any pre-release of the same numeric
core. -/
def preCmp (a b : String) : Ordering :=
  if a = b then Ordering.eq
  else if a = "" then Ordering.gt
  else if b = "" then Ordering.lt
  else identListCmp (a.splitOn ".") (b.splitOn ".")

/-- Modelled from the spec: go-version's ordered comparison — numeric
segments first, pre-release precedence as tie-breaker. -/
def GoVersion.cmp (a b : GoVersion) : Ordering :=
  match segCmp a.segments b.segments with
  | Ordering.eq => preCmp a.pre b.pre
  | o => o

/-- Modelled from the spec: go-version's `Version.LessThan`, strict
"ordered semantic-version comparison". -/
def GoVersion.LessThan (a b : GoVersion) : Bool :=
  a.cmp b = Ordering.lt

/-- The numeric value of a non-empty all-digit character list, `none`
otherwise. -/
def digitsVal (cs : List Char) : Option Nat :=
  if cs = [] then none
  else cs.foldlM (fun acc c => if c.isDigit then some (acc * 10 + (c.toNat - 48)) else none) 0

/-- Modelled from the spec: Go's `strconv.Atoi` — "must parse as a base-10
integer" — an optional sign followed by at least one decimal digit, rejected
when the value overflows a 64-bit integer; the Go standard library is not
among the repository's source files. -/
def Atoi (s : String) : Option Int :=
  let signed : Bool × List Char :=
    match s.toList with
    | '-' :: cs => (true, cs)
    | '+' :: cs => (false, cs)
    | cs => (false, cs)
  match digitsVal signed.2 with
  | none => none
  | some n =>
    let v : Int := if signed.1 then -(n : Int) else (n : Int)
    if v < -(2 ^ 63) ∨ 2 ^ 63 - 1 < v then none else some v

/-- Modelled from the spec: a TCP endpoint, Go's `net.TCPAddr` with an
abstract IP type — "network endpoints" built from an IP and a port. -/
structure TCPAddr (ip : Type) where
  IP : ip
  Port : Int
deriving DecidableEq, Repr

/-- The parts of a server role, from `serverParts` in
`src/vendor/github.com/hashicorp/nomad/nomad/util.go` (lines 26-41). -/
structure serverParts (ip : Type) where
  Name : String
  ID : String
  Region : String
  Datacenter : String
  Port : Int
  Bootstrap : Bool
  Expect : Int
  MajorVersion : Int
  MinorVersion : Int
  Build : GoVersion
  RaftVersion : Int
  Addr : TCPAddr ip
  RPCAddr : TCPAddr ip
  Status : MemberStatus
deriving DecidableEq, Repr

/-- The `expect` tag block of `isNomadServer` (util.go lines 69-77): the tag
is optional (absent reads as 0), but a present tag must parse as an
integer. -/
def expectTag {ip : Type} (m : Member ip) : Option Int :=
  match m.tags.lookup "expect" with
  | none => some 0
  | some s => Atoi s

/-- The `raft_vsn` tag block of `isNomadServer` (util.go lines 111-118):
optional (absent reads as 0), but a present tag must parse as an
integer. -/
def raftVsnTag {ip : Type} (m : Member ip) : Option Int :=
  match m.tags.lookup "raft_vsn" with
  | none => some 0
  | some s => Atoi s

/-- `isNomadServer` (util.go lines 56-139): whether a member is a Nomad
server, and its parts.  Go's `(bool, *serverParts)` return, in which
`(true, nil)` is never produced, is an `Option`.  The IP-literal parser
(Go's `net.ParseIP`) and the semantic-version parser (go-version's
`version.NewVersion`), whose sources are not among the repository's files,
are passed in as `parseIP` and `newVersion`; `rpcIP == nil` after parsing
becomes `Option.getD` with the gossip address `m.addr` as the fallback.
The five fallible parses (expect, port, build, vsn, raft_vsn) are pure, so
Go's sequence of early `return false, nil` statements is one simultaneous
match. -/
def isNomadServer {ip : Type} (parseIP : String → Option ip)
    (newVersion : String → Option GoVersion) (m : Member ip) :
    Option (serverParts ip) :=
  if (m.tags.lookup "role").getD "" ≠ "nomad" then none
  else
    match expectTag m, Atoi ((m.tags.lookup "port").getD ""),
        newVersion ((m.tags.lookup "build").getD ""),
        Atoi ((m.tags.lookup "vsn").getD ""), raftVsnTag m with
    | some expect, some port, some buildVersion, some majorVersion, some raftVsn =>
      some
        { Name := m.name
          ID := (m.tags.lookup "id").getD "unknown"
          Region := (m.tags.lookup "region").getD ""
          Datacenter := (m.tags.lookup "dc").getD ""
          Port := port
          Bootstrap := (m.tags.lookup "bootstrap").isSome
          Expect := expect
          MajorVersion := majorVersion
          MinorVersion := (Atoi ((m.tags.lookup "mvn").getD "")).getD 0
          Build := buildVersion
          RaftVersion := raftVsn
          Addr := { IP := m.addr, Port := port }
          RPCAddr := { IP := (parseIP ((m.tags.lookup "rpc_addr").getD "")).getD m.addr
                       Port := port }
          Status := m.status }
    | _, _, _, _, _ => none

/-- `slicesMatch` (util.go lines 158-178).  Go's nil-slice branches collapse
onto the empty list here (a nil and an empty slice are the same value in
this model, and `Segments()` never yields either). -/
def slicesMatch (a b : List Int) : Bool :=
  if a.length ≠ b.length then false
  else (a.zip b).all fun p => p.1 = p.2

/-- `ServersMeetMinimumVersion` (util.go lines 143-156): whether the given
alive servers are at least on the given version.  Go's loop with an early
`return false` is `List.all`. -/
def ServersMeetMinimumVersion {ip : Type} (parseIP : String → Option ip)
    (newVersion : String → Option GoVersion) (members : List (Member ip))
    (minVersion : GoVersion) : Bool :=
  members.all fun member =>
    match isNomadServer parseIP newVersion member with
    | some parts =>
      if parts.Status = MemberStatus.alive then
        let versionsMatch := slicesMatch minVersion.Segments parts.Build.Segments
        !(parts.Build.LessThan minVersion && !versionsMatch)
      else true
    | none => true

/-- Modelled from the spec: the orchestrator's registered worker node
("NodeAttributes — external entity … consulted only for a single attribute
string"); the `structs` package that declares it is not among the
repository's source files. -/
structure Node where
  Attributes : List (String × String)

/-- Modelled from the spec: the two typed errors of the capability gate,
"unknown version" and "lacks RPC support" (`structs.ErrUnknownNomadVersion`
and `structs.ErrNodeLacksRpc`; the `structs` package is not among the
repository's source files). -/
inductive NodeRpcErr where
  | errUnknownNomadVersion
  | errNodeLacksRpc
deriving DecidableEq, Repr

/-- `minNodeVersionSupportingRPC` (util.go line 226):
`version.Must(version.NewVersion("0.8.0-rc1"))`, the numeric core 0.8.0
with pre-release "rc1" (the go-version parser is not among the repository's
source files, so the constant is written out). -/
def minNodeVersionSupportingRPC : GoVersion :=
  { segments := [0, 8, 0], pre := "rc1" }

/-- `nodeSupportsRpc` (util.go lines 229-245): `none` when the node supports
RPC, the blocking error otherwise.  go-version's `version.NewVersion` is
passed in as `newVersion`. -/
def nodeSupportsRpc (newVersion : String → Option GoVersion) (node : Node) :
    Option NodeRpcErr :=
  match node.Attributes.lookup "nomad.version" with
  | none => some NodeRpcErr.errUnknownNomadVersion
  | some rawNodeVer =>
    match newVersion rawNodeVer with
    | none => some NodeRpcErr.errUnknownNomadVersion
    | some nodeVer =>
      if nodeVer.LessThan minNodeVersionSupportingRPC then
        some NodeRpcErr.errNodeLacksRpc
      else none

/-- The error type of `getNodeForRpc`: the snapshot lookup's own error
(type `E`, propagated unchanged), the formatted "Unknown node %q" error
carrying the looked-up ID, or a capability-gate error. -/
inductive RpcErr (E : Type) where
  | lookupFailed (e : E)
  | unknownNode (nodeID : String)
  | nodeRpc (e : NodeRpcErr)
deriving DecidableEq, Repr

/-- Modelled from the spec: the "state snapshot" collaborator, which
"exposes a node-by-ID lookup returning a node or 'not found'"; the `state`
package is not among the repository's source files.  Go's
`NodeByID(nil, nodeID) (*structs.Node, error)` pair of results is a pair of
options, `E` being the lookup's own error type. -/
structure StateSnapshot (E : Type) where
  NodeByID : String → Option Node × Option E

/-- `getNodeForRpc` (util.go lines 209-224) with the capability gate
abstracted as `gate`: the error from the lookup is checked first, then a nil
node, then the gate. -/
def getNodeForRpcGen {E : Type} (gate : Node → Option NodeRpcErr)
    (snap : StateSnapshot E) (nodeID : String) : Except (RpcErr E) Node :=
  match snap.NodeByID nodeID with
  | (_, some e) => Except.error (RpcErr.lookupFailed e)
  | (none, none) => Except.error (RpcErr.unknownNode nodeID)
  | (some node, none) =>
    match gate node with
    | some e => Except.error (RpcErr.nodeRpc e)
    | none => Except.ok node

/-- `getNodeForRpc` (util.go lines 209-224): the gate is `nodeSupportsRpc`
itself. -/
def getNodeForRpc {E : Type} (newVersion : String → Option GoVersion)
    (snap : StateSnapshot E) (nodeID : String) : Except (RpcErr E) Node :=
  getNodeForRpcGen (nodeSupportsRpc newVersion) snap nodeID

/-- The role check of `isNomadServer` (util.go line 57), as a Boolean of the
member alone: the role tag reads "nomad". -/
def roleOk {ip : Type} (m : Member ip) : Bool :=
  decide ((m.tags.lookup "role").getD "" = "nomad")

/-- The expect check of `isNomadServer` (util.go lines 69-77) succeeds. -/
def expectOk {ip : Type} (m : Member ip) : Bool :=
  (expectTag m).isSome

/-- The port parse of `isNomadServer` (util.go lines 85-89) succeeds. -/
def portOk {ip : Type} (m : Member ip) : Bool :=
  (Atoi ((m.tags.lookup "port").getD "")).isSome

/-- The build parse of `isNomadServer` (util.go lines 91-94) succeeds. -/
def buildOk {ip : Type} (newVersion : String → Option GoVersion) (m : Member ip) : Bool :=
  (newVersion ((m.tags.lookup "build").getD "")).isSome

/-- The vsn parse of `isNomadServer` (util.go lines 97-101) succeeds. -/
def vsnOk {ip : Type} (m : Member ip) : Bool :=
  (Atoi ((m.tags.lookup "vsn").getD "")).isSome

/-- The raft_vsn check of `isNomadServer` (util.go lines 111-118) succeeds. -/
def raftOk {ip : Type} (m : Member ip) : Bool :=
  (raftVsnTag m).isSome

/-- Classification succeeds exactly when the role tag reads "nomad" and the
five fallible tag parses succeed. -/
theorem isNomadServer_isSome_eq {ip : Type} (parseIP : String → Option ip)
    (newVersion : String → Option GoVersion) (m : Member ip) :
    (isNomadServer parseIP newVersion m).isSome =
      (roleOk m && expectOk m && portOk m && buildOk newVersion m &&
        vsnOk m && raftOk m) := by
  unfold isNomadServer roleOk expectOk portOk buildOk vsnOk raftOk
  by_cases hrole : (m.tags.lookup "role").getD "" = "nomad"
  · rw [if_neg (by simp [hrole])]
    cases expectTag m <;> cases Atoi ((m.tags.lookup "port").getD "") <;>
      cases newVersion ((m.tags.lookup "build").getD "") <;>
      cases Atoi ((m.tags.lookup "vsn").getD "") <;> cases raftVsnTag m <;>
      simp [hrole]
  · rw [if_pos (by simp [hrole])]
    simp [hrole]

/-- Inversion: what a successful classification says about each field of the
returned parts. -/
theorem isNomadServer_some_inv {ip : Type} {parseIP : String → Option ip}
    {newVersion : String → Option GoVersion} {m : Member ip}
    {parts : serverParts ip}
    (h : isNomadServer parseIP newVersion m = some parts) :
    (m.tags.lookup "role").getD "" = "nomad" ∧
    expectTag m = some parts.Expect ∧
    Atoi ((m.tags.lookup "port").getD "") = some parts.Port ∧
    newVersion ((m.tags.lookup "build").getD "") = some parts.Build ∧
    Atoi ((m.tags.lookup "vsn").getD "") = some parts.MajorVersion ∧
    raftVsnTag m = some parts.RaftVersion ∧
    parts.MinorVersion = (Atoi ((m.tags.lookup "mvn").getD "")).getD 0 ∧
    parts.Addr = { IP := m.addr, Port := parts.Port } ∧
    parts.RPCAddr =
      { IP := (parseIP ((m.tags.lookup "rpc_addr").getD "")).getD m.addr
        Port := parts.Port } ∧
    parts.Status = m.status := by
  unfold isNomadServer at h
  by_cases hrole : (m.tags.lookup "role").getD "" = "nomad"
  · rw [if_neg (by simp [hrole])] at h
    rcases he : expectTag m with _ | e <;> rw [he] at h <;>
      rcases hp : Atoi ((m.tags.lookup "port").getD "") with _ | p <;> rw [hp] at h <;>
      rcases hb : newVersion ((m.tags.lookup "build").getD "") with _ | b <;> rw [hb] at h <;>
      rcases hv : Atoi ((m.tags.lookup "vsn").getD "") with _ | v <;> rw [hv] at h <;>
      rcases hr : raftVsnTag m with _ | r <;> rw [hr] at h <;>
      simp only [Option.some.injEq, reduceCtorEq] at h
    subst h
    simp [hrole, he, hp, hb, hv, hr]
  · rw [if_pos (by simp [hrole])] at h
    simp at h

/-- `slicesMatch` on two cons cells: head equality and the tails' match. -/
theorem slicesMatch_cons (x y : Int) (xs ys : List Int) :
    slicesMatch (x :: xs) (y :: ys) = (decide (x = y) && slicesMatch xs ys) := by
  unfold slicesMatch
  by_cases h : xs.length = ys.length
  · simp [h]
  · simp [h]

/-- `slicesMatch` is equality of the two segment lists. -/
theorem slicesMatch_eq_true_iff (a b : List Int) :
    slicesMatch a b = true ↔ a = b := by
  induction a generalizing b with
  | nil => cases b <;> simp [slicesMatch]
  | cons x xs ih =>
    cases b with
    | nil => simp [slicesMatch]
    | cons y ys => simp [slicesMatch_cons, ih]


/-- C1: `ServersMeetMinimumVersion` is true exactly when every member that
classifies as a server and reports alive status is compliant: its build is
not strictly below `minVersion`, or its numeric segments equal
`minVersion`'s.  The empty qualifying set (in particular an empty member
list) makes the right-hand side vacuous, and non-server or non-alive
members impose no condition. -/
theorem ServersMeetMinimumVersion_iff {ip : Type} (parseIP : String → Option ip)
    (newVersion : String → Option GoVersion) (members : List (Member ip))
    (minVersion : GoVersion) :
    ServersMeetMinimumVersion parseIP newVersion members minVersion = true ↔
      ∀ member ∈ members, ∀ parts : serverParts ip,
        isNomadServer parseIP newVersion member = some parts →
        parts.Status = MemberStatus.alive →
        (parts.Build.LessThan minVersion = false ∨
          minVersion.Segments = parts.Build.Segments) := by
  unfold ServersMeetMinimumVersion
  rw [List.all_eq_true]
  constructor
  · intro h member hm parts hparts halive
    have hx := h member hm
    simp only [hparts] at hx
    rw [if_pos halive] at hx
    rcases Bool.eq_false_or_eq_true (parts.Build.LessThan minVersion) with hlt | hlt
    · right
      rw [← slicesMatch_eq_true_iff]
      simpa [hlt] using hx
    · exact Or.inl hlt
  · intro h member hm
    cases hi : isNomadServer parseIP newVersion member with
    | none => simp
    | some parts =>
      by_cases halive : parts.Status = MemberStatus.alive
      · rcases h member hm parts hi halive with hlt | hseg
        · simp [halive, hlt]
        · rw [← slicesMatch_eq_true_iff] at hseg
          simp [halive, hseg]
      · simp [halive]


/-- C2: classification yields either a full parts record or nothing (the
`Option` return embeds Go's `(bool, *serverParts)` pair, in which a partial
record or `(true, nil)` is never produced); whenever the role tag does not
read "nomad", or the mandatory port, build or vsn tag fails to parse, the
result is `none`. -/
theorem isNomadServer_mandatory {ip : Type} (parseIP : String → Option ip)
    (newVersion : String → Option GoVersion) (m : Member ip)
    (h : roleOk m = false ∨ portOk m = false ∨ buildOk newVersion m = false ∨
      vsnOk m = false) :
    isNomadServer parseIP newVersion m = none := by
  have hs := isNomadServer_isSome_eq parseIP newVersion m
  rcases hx : isNomadServer parseIP newVersion m with _ | parts
  · rfl
  · rw [hx] at hs
    rcases h with h | h | h | h <;> simp [h] at hs

def unitIP : String → Option Unit := fun _ => none

def nv100 : String → Option GoVersion :=
  fun s => if s = "1.0.0" then some { segments := [1, 0, 0], pre := "" } else none

/-- A member whose role tag reads "client": not a server. -/
theorem isNomadServer_mandatory_witness :
    isNomadServer unitIP nv100
      { name := "w", addr := (), status := MemberStatus.alive,
        tags := [("role", "client"), ("port", "4647"), ("build", "1.0.0"),
          ("vsn", "1")] } = none :=
  isNomadServer_mandatory unitIP nv100 _ (Or.inl (by decide))

/-- C3: the capability gate returns the "unknown version" error when the
version attribute is absent or does not parse, the "lacks RPC support"
error when the parsed version is strictly below the fixed threshold, and no
error otherwise. -/
theorem nodeSupportsRpc_spec (newVersion : String → Option GoVersion)
    (node : Node) :
    (node.Attributes.lookup "nomad.version" = none →
      nodeSupportsRpc newVersion node = some NodeRpcErr.errUnknownNomadVersion) ∧
    (∀ raw, node.Attributes.lookup "nomad.version" = some raw →
      newVersion raw = none →
      nodeSupportsRpc newVersion node = some NodeRpcErr.errUnknownNomadVersion) ∧
    (∀ raw v, node.Attributes.lookup "nomad.version" = some raw →
      newVersion raw = some v →
      nodeSupportsRpc newVersion node =
        (if v.LessThan minNodeVersionSupportingRPC then
          some NodeRpcErr.errNodeLacksRpc
        else none)) := by
  refine ⟨fun h => ?_, fun raw h hv => ?_, fun raw v h hv => ?_⟩
  · simp [nodeSupportsRpc, h]
  · simp [nodeSupportsRpc, h, hv]
  · simp [nodeSupportsRpc, h, hv]

/-- C4: `getNodeForRpc` on a lookup that errors with no error and finds no
node returns the "unknown node" error carrying the ID; on a found node it
propagates the capability gate's verdict. -/
theorem getNodeForRpc_spec {E : Type} (newVersion : String → Option GoVersion)
    (snap : StateSnapshot E) (nodeID : String) :
    (snap.NodeByID nodeID = (none, none) →
      getNodeForRpc newVersion snap nodeID =
        Except.error (RpcErr.unknownNode nodeID)) ∧
    (∀ node, snap.NodeByID nodeID = (some node, none) →
      (∀ e, nodeSupportsRpc newVersion node = some e →
        getNodeForRpc newVersion snap nodeID = Except.error (RpcErr.nodeRpc e)) ∧
      (nodeSupportsRpc newVersion node = none →
        getNodeForRpc newVersion snap nodeID = Except.ok node)) := by
  refine ⟨fun h => ?_, fun node h => ⟨fun e hg => ?_, fun hg => ?_⟩⟩
  · simp [getNodeForRpc, getNodeForRpcGen, h]
  · simp [getNodeForRpc, getNodeForRpcGen, h, hg]
  · simp [getNodeForRpc, getNodeForRpcGen, h, hg]


/-- C5 counterexample: a member whose tags are otherwise well-formed but
whose port tag reads "0" is accepted as a server, and the resulting parts
record carries port 0, which is not positive — the code never checks the
parsed port's sign. -/
theorem isNomadServer_port_positive_cex :
    (isNomadServer unitIP nv100
      { name := "srv", addr := (), status := MemberStatus.alive,
        tags := [("role", "nomad"), ("port", "0"), ("build", "1.0.0"),
          ("vsn", "1")] }).map serverParts.Port = some 0 ∧
    ¬ (0 : Int) < 0 := by
  constructor
  · decide
  · decide

/-- C5 (amended): the parts record's port is exactly the integer parsed
from the port tag — with no positivity check — and a member whose port tag
is absent or does not parse as an integer is rejected. -/
theorem isNomadServer_port_amended {ip : Type} (parseIP : String → Option ip)
    (newVersion : String → Option GoVersion) (m : Member ip) :
    (∀ parts : serverParts ip, isNomadServer parseIP newVersion m = some parts →
      Atoi ((m.tags.lookup "port").getD "") = some parts.Port) ∧
    (Atoi ((m.tags.lookup "port").getD "") = none →
      isNomadServer parseIP newVersion m = none) := by
  constructor
  · intro parts h
    exact (isNomadServer_some_inv h).2.2.1
  · intro h
    have hs := isNomadServer_isSome_eq parseIP newVersion m
    rcases hx : isNomadServer parseIP newVersion m with _ | parts
    · rfl
    · rw [hx] at hs
      simp [portOk, h] at hs

/-- C6: with the role tag reading "nomad" and the mandatory parses
succeeding, an absent expect tag (and a well-formed raft_vsn tag) yields a
server with expect 0, an absent raft_vsn tag (and a well-formed expect tag)
yields a server with raft version 0, and a present expect or raft_vsn tag
that does not parse as an integer makes classification fail entirely. -/
theorem isNomadServer_optional_strict {ip : Type} (parseIP : String → Option ip)
    (newVersion : String → Option GoVersion) (m : Member ip)
    (hrole : roleOk m = true) (hport : portOk m = true)
    (hbuild : buildOk newVersion m = true) (hvsn : vsnOk m = true) :
    (m.tags.lookup "expect" = none → raftOk m = true →
      ∃ parts : serverParts ip, isNomadServer parseIP newVersion m = some parts ∧
        parts.Expect = 0) ∧
    (m.tags.lookup "raft_vsn" = none → expectOk m = true →
      ∃ parts : serverParts ip, isNomadServer parseIP newVersion m = some parts ∧
        parts.RaftVersion = 0) ∧
    (∀ s, m.tags.lookup "expect" = some s → Atoi s = none →
      isNomadServer parseIP newVersion m = none) ∧
    (∀ s, m.tags.lookup "raft_vsn" = some s → Atoi s = none →
      isNomadServer parseIP newVersion m = none) := by
  have hs := isNomadServer_isSome_eq parseIP newVersion m
  refine ⟨fun he hr => ?_, fun hr he => ?_, fun s hse ha => ?_, fun s hsr ha => ?_⟩
  · have hexp : expectOk m = true := by simp [expectOk, expectTag, he]
    rw [hrole, hexp, hport, hbuild, hvsn, hr] at hs
    simp only [Bool.and_true, Bool.and_self] at hs
    rcases hx : isNomadServer parseIP newVersion m with _ | parts
    · rw [hx] at hs; simp at hs
    · refine ⟨parts, rfl, ?_⟩
      have hinv := isNomadServer_some_inv hx
      have : expectTag m = some 0 := by simp [expectTag, he]
      have h0 := hinv.2.1
      rw [this] at h0
      exact (Option.some_inj.mp h0).symm
  · have hraft : raftOk m = true := by simp [raftOk, raftVsnTag, hr]
    rw [hrole, he, hport, hbuild, hvsn, hraft] at hs
    simp only [Bool.and_true, Bool.and_self] at hs
    rcases hx : isNomadServer parseIP newVersion m with _ | parts
    · rw [hx] at hs; simp at hs
    · refine ⟨parts, rfl, ?_⟩
      have hinv := isNomadServer_some_inv hx
      have : raftVsnTag m = some 0 := by simp [raftVsnTag, hr]
      have h0 := hinv.2.2.2.2.2.1
      rw [this] at h0
      exact (Option.some_inj.mp h0).symm
  · rcases hx : isNomadServer parseIP newVersion m with _ | parts
    · rfl
    · rw [hx] at hs
      simp [expectOk, expectTag, hse, ha] at hs
  · rcases hx : isNomadServer parseIP newVersion m with _ | parts
    · rfl
    · rw [hx] at hs
      simp [raftOk, raftVsnTag, hsr, ha] at hs

/-- A member with the mandatory tags well-formed and no expect tag: accepted
with expect 0. -/
theorem isNomadServer_optional_strict_witness :
    ∃ parts : serverParts Unit,
      isNomadServer unitIP nv100
        { name := "srv", addr := (), status := MemberStatus.alive,
          tags := [("role", "nomad"), ("port", "4647"), ("build", "1.0.0"),
            ("vsn", "1")] } = some parts ∧ parts.Expect = 0 :=
  (isNomadServer_optional_strict unitIP nv100 _ (by decide) (by decide)
    (by decide) (by decide)).1 (by decide) (by decide)

/-- C7: an absent or unparseable mvn tag leaves the minor version at 0 in
every accepted parts record, and mvn never decides acceptance: with the
role tag reading "nomad" and the expect, port, build, vsn and raft_vsn
checks succeeding, classification succeeds whatever the mvn tag holds. -/
theorem isNomadServer_mvn {ip : Type} (parseIP : String → Option ip)
    (newVersion : String → Option GoVersion) (m : Member ip) :
    ((m.tags.lookup "mvn" = none ∨
        ∃ s, m.tags.lookup "mvn" = some s ∧ Atoi s = none) →
      ∀ parts : serverParts ip, isNomadServer parseIP newVersion m = some parts →
        parts.MinorVersion = 0) ∧
    (roleOk m = true → expectOk m = true → portOk m = true →
      buildOk newVersion m = true → vsnOk m = true → raftOk m = true →
      (isNomadServer parseIP newVersion m).isSome = true) := by
  constructor
  · intro hm parts h
    have hmv := (isNomadServer_some_inv h).2.2.2.2.2.2.1
    rcases hm with hm | ⟨s, hm, ha⟩
    · rw [hmv]
      simp [hm, Atoi, digitsVal]
    · rw [hmv, hm]
      simp [ha]
  · intro h1 h2 h3 h4 h5 h6
    rw [isNomadServer_isSome_eq, h1, h2, h3, h4, h5, h6]
    rfl


/-- C8: when the rpc_addr tag is absent (Go map indexing then hands the
IP parser the empty string, on which `net.ParseIP` returns nil — the
`parseIP "" = none` hypothesis) or its value does not parse as an IP
literal, every accepted parts record falls back to the member's gossip
address for its RPC endpoint; and rpc_addr never decides acceptance: with
the role tag reading "nomad" and the expect, port, build, vsn and raft_vsn
checks succeeding, classification succeeds whatever the rpc_addr tag
holds. -/
theorem isNomadServer_rpcAddr_fallback {ip : Type} (parseIP : String → Option ip)
    (newVersion : String → Option GoVersion) (m : Member ip) :
    ((m.tags.lookup "rpc_addr" = none ∧ parseIP "" = none ∨
        ∃ s, m.tags.lookup "rpc_addr" = some s ∧ parseIP s = none) →
      ∀ parts : serverParts ip, isNomadServer parseIP newVersion m = some parts →
        parts.RPCAddr.IP = m.addr) ∧
    (roleOk m = true → expectOk m = true → portOk m = true →
      buildOk newVersion m = true → vsnOk m = true → raftOk m = true →
      (isNomadServer parseIP newVersion m).isSome = true) := by
  constructor
  · intro hm parts h
    have hrpc := (isNomadServer_some_inv h).2.2.2.2.2.2.2.2.1
    rcases hm with ⟨hm, hp⟩ | ⟨s, hm, hp⟩ <;>
      rw [hrpc] <;> simp [hm, hp]
  · intro h1 h2 h3 h4 h5 h6
    rw [isNomadServer_isSome_eq, h1, h2, h3, h4, h5, h6]
    rfl

/-- C9: when the snapshot lookup itself errors, `getNodeForRpc` returns
that error unchanged (wrapped as the lookup-failure alternative, distinct
from the "unknown node" and capability-gate alternatives), whatever node
value the lookup paired with it; and the result is the same for every
capability gate, so the gate is never consulted on this path. -/
theorem getNodeForRpc_lookup_error {E : Type}
    (newVersion : String → Option GoVersion) (snap : StateSnapshot E)
    (nodeID : String) (nodeRes : Option Node) (e : E)
    (h : snap.NodeByID nodeID = (nodeRes, some e)) :
    getNodeForRpc newVersion snap nodeID =
      Except.error (RpcErr.lookupFailed e) ∧
    ∀ gate : Node → Option NodeRpcErr,
      getNodeForRpcGen gate snap nodeID =
        Except.error (RpcErr.lookupFailed e) := by
  constructor
  · simp [getNodeForRpc, getNodeForRpcGen, h]
  · intro gate
    simp [getNodeForRpcGen, h]

def snapBoom : StateSnapshot String :=
  { NodeByID := fun _ => (none, some "boom") }

/-- A snapshot whose lookup always errors with "boom": the error comes back
unchanged. -/
theorem getNodeForRpc_lookup_error_witness :
    getNodeForRpc nv100 snapBoom "node-1" =
      Except.error (RpcErr.lookupFailed "boom") :=
  (getNodeForRpc_lookup_error nv100 snapBoom "node-1" none "boom" rfl).1

/-- C10: in every accepted parts record, both endpoints carry exactly the
port parsed from the port tag — the rpc_addr tag can only change the IP,
never the port. -/
theorem isNomadServer_ports_agree {ip : Type} (parseIP : String → Option ip)
    (newVersion : String → Option GoVersion) (m : Member ip)
    (parts : serverParts ip)
    (h : isNomadServer parseIP newVersion m = some parts) :
    parts.RPCAddr.Port = parts.Port ∧ parts.Addr.Port = parts.Port ∧
    Atoi ((m.tags.lookup "port").getD "") = some parts.Port := by
  have hinv := isNomadServer_some_inv h
  refine ⟨?_, ?_, hinv.2.2.1⟩
  · rw [hinv.2.2.2.2.2.2.2.2.1]
  · rw [hinv.2.2.2.2.2.2.2.1]

def memberGood : Member Unit :=
  { name := "srv", addr := (), status := MemberStatus.alive,
    tags := [("role", "nomad"), ("port", "4647"), ("build", "1.0.0"),
      ("vsn", "1"), ("rpc_addr", "10.0.0.1")] }

def partsGood : serverParts Unit :=
  { Name := "srv", ID := "unknown", Region := "", Datacenter := "",
    Port := 4647, Bootstrap := false, Expect := 0, MajorVersion := 1,
    MinorVersion := 0, Build := { segments := [1, 0, 0], pre := "" },
    RaftVersion := 0, Addr := { IP := (), Port := 4647 },
    RPCAddr := { IP := (), Port := 4647 }, Status := MemberStatus.alive }

/-- A concrete accepted member: both endpoints carry the parsed port
4647. -/
theorem isNomadServer_ports_agree_witness :
    partsGood.RPCAddr.Port = partsGood.Port ∧
    partsGood.Addr.Port = partsGood.Port ∧
    Atoi ((memberGood.tags.lookup "port").getD "") = some partsGood.Port :=
  isNomadServer_ports_agree unitIP nv100 memberGood partsGood (by decide)

end Nomad
